import Mathlib

/-!
Verification development for the tracer core: the Logger entry-ID
allocator (src/cpp/logger/Logger.h) and the trace lifecycle writer
(src/cpp/writer/TraceLifecycleVisitor.cpp), shallowly embedded in Lean.
Machine integers are modelled as `Int` with explicit two's-complement
wrapping where the source relies on it; filesystem and stream side
effects are modelled as an explicit effect trace, and C++ exceptions as
an `Option String` thrown-message component of each step result.
-/

namespace Loom

/-! ## ID allocator (src/cpp/logger/Logger.h) -/

/-- Sentinel `Logger::TRACING_DISABLED = -1`. -/
def TRACING_DISABLED : Int := -1

/-- Sentinel `Logger::NO_MATCH = 0`. -/
def NO_MATCH : Int := 0

/-- Two's-complement wrap of an unbounded integer into the `int32_t`
range `[-2^31, 2^31)`, as performed by `std::atomic<int32_t>::fetch_add`. -/
def i32wrap (x : Int) : Int := (x + 2 ^ 31) % 2 ^ 32 - 2 ^ 31

/-- One `entryID_.fetch_add(step)`: returns the old counter value and the
wrapped new counter. `step` is the `uint16_t id_step` argument. -/
def fetchAdd (c : Int) (step : Nat) : Int × Int := (c, i32wrap (c + step))

/-- The do/while loop of `Logger::nextID`, with explicit fuel: fetch-add
the counter, retry while the fetched value is one of the two sentinels.
`none` means the loop did not exit within the given number of fetches. -/
def nextIDAux : Nat → Int → Nat → Option (Int × Int)
| 0, _, _ => none
| fuel + 1, c, step =>
  let r := fetchAdd c step
  if r.1 = TRACING_DISABLED ∨ r.1 = NO_MATCH then nextIDAux fuel r.2 step
  else some r

/-- `Logger::nextID(step)`. For any step in `[1, 65535]` the retry loop
performs at most three fetches (two consecutive fetches can hit the two
sentinels only in the order -1, 0, and only when step = 1), so fuel 3 is
exact: it never truncates a run the C++ loop would finish. -/
def nextID (c : Int) (step : Nat) : Option (Int × Int) := nextIDAux 3 c step

/-- The sequence of entry ids returned by successive `Logger::write`
calls, one per element of `steps`, starting from counter `c`
(`Logger`'s constructor initializes `entryID_` to 0). `Logger::write`
assigns `entry.id = nextID(id_step)` and returns it unchanged; packing
and the packet-logger write are external effects with no influence on
the returned id. -/
def runWrites : List Nat → Int → List Int
| [], _ => []
| step :: rest, c =>
  match nextID c step with
  | none => []
  | some r => r.1 :: runWrites rest r.2

/-! ## Trace-id base64 encoding (TraceLifecycleVisitor.cpp, getTraceID) -/

/-- The alphabet string `kBase64Alphabet` of `getTraceID`. -/
def kBase64Alphabet : List Char :=
  ("ABCDEFGHIJKLMNOPQRSTUVWXYZabcdefghijklmnopqrstuvwxyz0123456789+/").toList

/-- The constant `kTraceIdStringLen = 11` of `getTraceID`. -/
def kTraceIdStringLen : Nat := 11

/-- Indexing `kBase64Alphabet[d]`; in every use below `d < 64` holds, so
the default is never taken. -/
def digitChar (d : Nat) : Char := kBase64Alphabet.getD d 'A'

/-- The digit loop of `getTraceID`: `for idx from high to low:
result[idx] = kBase64Alphabet[trace_id % 64]; trace_id /= 64`. The
accumulator receives digits least-significant first and prepends, so the
resulting list is most-significant first, exactly like the C buffer.
Returns the final value of the `trace_id` variable and the buffer. -/
def encodeLoop : Nat → Int → List Char → Int × List Char
| 0, x, acc => (x, acc)
| n + 1, x, acc => encodeLoop n (x / 64) (digitChar (x % 64).toNat :: acc)

/-- `getTraceID(trace_id)` as the list of the 11 buffer characters:
negative ids throw `std::invalid_argument` (modelled as `Except.error`
with the source's message). Every written character comes from the
alphabet and is non-NUL, so `std::string(result)` takes all 11 chars. -/
def getTraceID (trace_id : Int) : Except String (List Char) :=
  if trace_id < 0 then Except.error "trace_id must be non-negative"
  else Except.ok (encodeLoop kTraceIdStringLen trace_id []).2

/-- The `std::string` actually returned by `getTraceID`. -/
def getTraceIDString (trace_id : Int) : Except String String :=
  (getTraceID trace_id).map (fun cs => String.mk cs)

/-- Position of a character in the base64 alphabet, i.e. the value of
the base-64 digit it denotes (the decoding direction of the claim). -/
def charDigit (c : Char) : Int := (kBase64Alphabet.indexOf c : Int)

/-- Interpret characters as base-64 digits, most significant first,
starting from accumulator `v`. -/
def decodeB64Aux (v : Int) (l : List Char) : Int :=
  l.foldl (fun a c => a * 64 + charDigit c) v

/-- Interpret a character list as base-64 digits, most significant
first. -/
def decodeB64 (l : List Char) : Int := decodeB64Aux 0 l

/-! ## Trace lifecycle writer (TraceLifecycleVisitor.cpp) -/

/-- Entry type tags dispatched on by `TraceLifecycleVisitor::visit`.
The enum itself lives in a header outside src/; only the lifecycle tags
named by the switch matter, all remaining tags land in the switch's
default branch and are represented by `other`. -/
inductive EntryType
| STACK_FRAME
| TRACE_END
| TRACE_TIMEOUT
| TRACE_ABORT
| TRACE_BACKWARDS
| TRACE_START
| other (tag : Nat)
deriving DecidableEq

/-- Modelled from the spec: a standard entry's fields
`id, type, timestamp, tid, callid, matchid, extra` (the struct
declaration lives in a header outside src/). -/
structure StandardEntry where
  id : Int
  type : EntryType
  timestamp : Int
  tid : Int
  callid : Int
  matchid : Int
  extra : Int
deriving DecidableEq

/-- Modelled from the spec: a frames entry (standard fields plus frame
addresses); the lifecycle visitor only forwards it, so the exact field
set is irrelevant to the claims. -/
structure FramesEntry where
  id : Int
  type : EntryType
  timestamp : Int
  tid : Int
  frames : List Int
deriving DecidableEq

/-- Modelled from the spec: a bytes entry (standard header plus `arg1`
and a byte run); the lifecycle visitor only forwards it. -/
structure BytesEntry where
  id : Int
  type : EntryType
  matchid : Int
  arg1 : Int
  bytes : List Nat
deriving DecidableEq

/-- The abort reasons used by TraceLifecycleVisitor.cpp (the enum is
declared in a header outside src/; these three constructors are the ones
the source file uses). -/
inductive AbortReason
| NEW_START
| TIMEOUT
| CONTROLLER_INITIATED
deriving DecidableEq

/-- The four visitors `onTraceStart` emplaces into `delegates_`, in
emplacement order (`delegates_.back()` is the last one). Their internal
transformation behavior lives outside src/ and is irrelevant here: the
lifecycle claims only concern whether an entry is handed to the chain. -/
inductive DelegateKind
| printEntry
| deltaEncoding
| timestampTruncating
| stackTraceInverting
deriving DecidableEq

/-- Observable side effects of one visit, in program order: file
open/close, bytes written to the output stream, an entry handed to
`delegates_.back()->visit(...)` (the head of the pipeline, which ends in
the printing visitor writing to the output), and the three callbacks. -/
inductive Effect
| openFile (path : String)
| writeOutput (s : String)
| pipelineVisitStandard (e : StandardEntry)
| pipelineVisitFrames (e : FramesEntry)
| pipelineVisitBytes (e : BytesEntry)
| closeFile
| cbTraceStart (trace_id : Int) (flags : Int) (path : String)
| cbTraceEnd (trace_id : Int)
| cbTraceAbort (trace_id : Int) (reason : AbortReason)
deriving DecidableEq

/-- The ambient process environment read by `onTraceStart`: `getpid()`,
the `localtime_r` fields used by `getTraceFilename` (and whether that
call succeeds), whether `ensureFolder`'s stat/mkdirat sequence succeeds,
and the two compile-time constants referenced by `writeHeaders` and the
pipeline, whose values live in a header outside src/. -/
structure Env where
  pid : Nat
  tm_year : Int
  tm_mon : Int
  tm_mday : Int
  tm_hour : Int
  tm_min : Int
  tm_sec : Int
  localtimeOk : Bool
  ensureFolderOk : Bool
  kTraceFormatVersion : Nat
  kTimestampPrecision : Nat
deriving DecidableEq

/-- The member state of `TraceLifecycleVisitor`: the constructor
arguments `folder_`, `trace_prefix_` (here `trace_pfx`),
`trace_headers_`, whether `callbacks_` is non-null, and the mutable
members `output_` (the open file's path, if any), `delegates_`,
`expected_trace_` and `done_`. -/
structure TraceLifecycleVisitor where
  folder : String
  trace_pfx : String
  trace_headers : List (String × String)
  hasCallbacks : Bool
  output : Option String
  delegates : List DelegateKind
  expected_trace : Int
  done : Bool
deriving DecidableEq

/-- The outcome of one visitor call: the member state on return (or at
the throw point), the effects performed before returning or throwing,
and the message of the propagating exception, if one was thrown. -/
structure StepResult where
  state : TraceLifecycleVisitor
  effects : List Effect
  thrown : Option String
deriving DecidableEq

/-- The per-character test of `sanitize`: keep `[A-Za-z0-9._-]`,
replace anything else with an underscore. -/
def sanitizeChar (ch : Char) : Char :=
  if (('A' ≤ ch ∧ ch ≤ 'Z') ∨ ('a' ≤ ch ∧ ch ≤ 'z') ∨ ('0' ≤ ch ∧ ch ≤ '9')
      ∨ ch = '-' ∨ ch = '_' ∨ ch = '.') then ch else '_'

/-- `sanitize(input)` from TraceLifecycleVisitor.cpp. -/
def sanitize (input : String) : String := String.mk (input.toList.map sanitizeChar)

/-- `getTraceFilename(trace_prefix, trace_id)`: throws when
`localtime_r` fails, otherwise
`<prefix>-<pid>-<1900+year>-<1+mon>-<mday>T<hour>-<min>-<sec>-<id>.tmp`. -/
def getTraceFilename (env : Env) (pfx : String) (trace_id : String) :
    Except String String :=
  if env.localtimeOk = false then Except.error "Could not localtime_r(3)"
  else Except.ok (pfx ++ "-" ++ toString env.pid ++ "-"
    ++ toString (1900 + env.tm_year) ++ "-" ++ toString (1 + env.tm_mon) ++ "-"
    ++ toString env.tm_mday ++ "T" ++ toString env.tm_hour ++ "-"
    ++ toString env.tm_min ++ "-" ++ toString env.tm_sec
    ++ "-" ++ trace_id ++ ".tmp")

/-- `TraceLifecycleVisitor::writeHeaders(output, id)` as the string of
bytes inserted into the stream, in insertion order; `version` and
`precision` stand for the constants `kTraceFormatVersion` and
`kTimestampPrecision`. -/
def writeHeaders (version : Nat) (precision : Nat)
    (trace_headers : List (String × String)) (id : String) : String :=
  let out := "dt\n" ++ "ver|" ++ toString version ++ "\n"
    ++ "id|" ++ id ++ "\n" ++ "prec|" ++ toString precision ++ "\n"
  let out := trace_headers.foldl (fun acc h => acc ++ h.1 ++ "|" ++ h.2 ++ "\n") out
  out ++ "\n"

/-- Spec-side description of the configured header lines: one
newline-terminated `key|value` line per pair, in order. -/
def headerLines : List (String × String) → String
| [] => ""
| h :: t => h.1 ++ "|" ++ h.2 ++ "\n" ++ headerLines t

/-- `TraceLifecycleVisitor::hasDelegate()`. -/
def TraceLifecycleVisitor.hasDelegate (s : TraceLifecycleVisitor) : Bool :=
  !s.delegates.isEmpty

/-- `TraceLifecycleVisitor::cleanupState()`: clear `delegates_`, reset
`output_`; dropping the owning pointer closes the file, recorded as a
`closeFile` effect when a file was open. -/
def cleanupState (s : TraceLifecycleVisitor) : TraceLifecycleVisitor × List Effect :=
  ({ s with delegates := [], output := none },
   if s.output.isSome then [Effect.closeFile] else [])

/-- `TraceLifecycleVisitor::onTraceAbort(trace_id, reason)`: set
`done_`, tear down, then fire the callback when `callbacks_` is
non-null. -/
def onTraceAbort (s : TraceLifecycleVisitor) (trace_id : Int) (reason : AbortReason) :
    TraceLifecycleVisitor × List Effect :=
  let s := { s with done := true }
  let r := cleanupState s
  (r.1, r.2 ++ (if s.hasCallbacks then [Effect.cbTraceAbort trace_id reason] else []))

/-- `TraceLifecycleVisitor::onTraceEnd(trace_id)`. -/
def onTraceEnd (s : TraceLifecycleVisitor) (trace_id : Int) :
    TraceLifecycleVisitor × List Effect :=
  let s := { s with done := true }
  let r := cleanupState s
  (r.1, r.2 ++ (if s.hasCallbacks then [Effect.cbTraceEnd trace_id] else []))

/-- `TraceLifecycleVisitor::onTraceStart(trace_id, flags)`, step by step
in source order: mismatch check, double-start abort, trace-id encoding
(throws on negative), folder creation (throw on failure leaves the
members untouched), filename computation (throws when `localtime_r`
fails), file open, header emission, pipeline construction, callback,
`done_ = false`. -/
def onTraceStart (env : Env) (s : TraceLifecycleVisitor)
    (trace_id : Int) (flags : Int) : StepResult :=
  if trace_id ≠ s.expected_trace then ⟨s, [], none⟩
  else if s.output.isSome then
    let r := onTraceAbort s s.expected_trace AbortReason.NEW_START
    ⟨r.1, r.2, none⟩
  else
    match getTraceIDString trace_id with
    | Except.error e => ⟨s, [], some e⟩
    | Except.ok trace_id_string =>
      let trace_folder := s.folder ++ "/" ++ sanitize trace_id_string
      if env.ensureFolderOk = false then
        ⟨s, [], some ("Could not create trace folder " ++ trace_folder)⟩
      else
        match getTraceFilename env s.trace_pfx trace_id_string with
        | Except.error e => ⟨s, [], some e⟩
        | Except.ok fname =>
          let trace_file := trace_folder ++ "/" ++ sanitize fname
          let s1 := { s with output := some trace_file }
          let eff := [Effect.openFile trace_file,
            Effect.writeOutput (writeHeaders env.kTraceFormatVersion
              env.kTimestampPrecision s.trace_headers trace_id_string)]
          let s2 := { s1 with delegates := [DelegateKind.printEntry,
            DelegateKind.deltaEncoding, DelegateKind.timestampTruncating,
            DelegateKind.stackTraceInverting] }
          let eff := eff ++ (if s.hasCallbacks
            then [Effect.cbTraceStart trace_id flags trace_file] else [])
          ⟨{ s2 with done := false }, eff, none⟩

/-- `TraceLifecycleVisitor::visit(const StandardEntry&)`: the switch on
`entry.type`, with the `TRACE_BACKWARDS`/`TRACE_START` fallthrough and
the default branch exactly as in the source. -/
def TraceLifecycleVisitor.visitStandard (env : Env) (s : TraceLifecycleVisitor)
    (entry : StandardEntry) : StepResult :=
  match entry.type with
  | EntryType.TRACE_END =>
    let trace_id := entry.extra
    if trace_id ≠ s.expected_trace then ⟨s, [], none⟩
    else
      let eff0 := if s.hasDelegate then [Effect.pipelineVisitStandard entry] else []
      let r := onTraceEnd s trace_id
      ⟨r.1, eff0 ++ r.2, none⟩
  | EntryType.TRACE_TIMEOUT | EntryType.TRACE_ABORT =>
    let trace_id := entry.extra
    if trace_id ≠ s.expected_trace then ⟨s, [], none⟩
    else
      let reason := if entry.type = EntryType.TRACE_TIMEOUT
        then AbortReason.TIMEOUT else AbortReason.CONTROLLER_INITIATED
      let eff0 := if s.hasDelegate then [Effect.pipelineVisitStandard entry] else []
      let r := onTraceAbort s trace_id reason
      ⟨r.1, eff0 ++ r.2, none⟩
  | EntryType.TRACE_BACKWARDS | EntryType.TRACE_START =>
    let r := onTraceStart env s entry.extra entry.matchid
    match r.thrown with
    | some _ => r
    | none =>
      let eff1 := if r.state.hasDelegate
        then [Effect.pipelineVisitStandard entry] else []
      ⟨r.state, r.effects ++ eff1, none⟩
  | _ =>
    ⟨s, (if s.hasDelegate then [Effect.pipelineVisitStandard entry] else []), none⟩

/-- `TraceLifecycleVisitor::visit(const FramesEntry&)`. -/
def TraceLifecycleVisitor.visitFrames (s : TraceLifecycleVisitor)
    (entry : FramesEntry) : StepResult :=
  ⟨s, (if s.hasDelegate then [Effect.pipelineVisitFrames entry] else []), none⟩

/-- `TraceLifecycleVisitor::visit(const BytesEntry&)`. -/
def TraceLifecycleVisitor.visitBytes (s : TraceLifecycleVisitor)
    (entry : BytesEntry) : StepResult :=
  ⟨s, (if s.hasDelegate then [Effect.pipelineVisitBytes entry] else []), none⟩

/-- A concrete environment used by witnesses. -/
def envC : Env := ⟨123, 70, 5, 17, 10, 20, 30, true, true, 1, 100⟩

/-- A concrete idle visitor (no open file, no delegates) expecting
trace 42, used by witnesses. -/
def idleState : TraceLifecycleVisitor :=
  ⟨"/traces", "trace", [("key", "value")], true, none, [], 42, false⟩

/-- A concrete visitor with an active trace (open file and full
pipeline) expecting trace 42, used by witnesses. -/
def activeState : TraceLifecycleVisitor :=
  ⟨"/traces", "trace", [("key", "value")], true, some "/traces/open.tmp",
   [DelegateKind.printEntry, DelegateKind.deltaEncoding,
    DelegateKind.timestampTruncating, DelegateKind.stackTraceInverting],
   42, false⟩

end Loom

namespace Loom

/-! ## Lemmas about the ID allocator -/

lemma i32wrap_eq_self {x : Int} (h1 : -2 ^ 31 ≤ x) (h2 : x < 2 ^ 31) :
    i32wrap x = x := by
  unfold i32wrap
  have : (x + 2 ^ 31) % 2 ^ 32 = x + 2 ^ 31 := Int.emod_eq_of_lt (by omega) (by omega)
  omega

lemma nextIDAux_step (fuel : Nat) (c : Int) (step : Nat) :
    nextIDAux (fuel + 1) c step =
      if c = TRACING_DISABLED ∨ c = NO_MATCH then nextIDAux fuel (i32wrap (c + step)) step
      else some (c, i32wrap (c + step)) := rfl

lemma nextID_pos {c : Int} {s : Nat} (hc : 1 ≤ c) (hb : c + s < 2 ^ 31) :
    nextID c s = some (c, c + s) := by
  unfold nextID nextIDAux fetchAdd
  simp only [TRACING_DISABLED, NO_MATCH]
  rw [if_neg (by omega)]
  rw [i32wrap_eq_self (by omega) (by push_cast; omega)]

lemma nextID_zero {s : Nat} (hs : 1 ≤ s) (hb : (s : Int) * 2 < 2 ^ 31) :
    nextID 0 s = some ((s : Int), (2 * s : Int)) := by
  have hs' : (1 : Int) ≤ (s : Int) := by exact_mod_cast hs
  have h1 : i32wrap (0 + (s : Int)) = (s : Int) := by
    rw [i32wrap_eq_self (by omega) (by omega)]; omega
  show nextIDAux (2 + 1) 0 s = _
  rw [nextIDAux_step]
  rw [if_pos (show (0 : Int) = TRACING_DISABLED ∨ (0 : Int) = NO_MATCH from Or.inr rfl)]
  rw [h1]
  show nextIDAux (1 + 1) (s : Int) s = _
  rw [nextIDAux_step]
  rw [if_neg (by simp only [TRACING_DISABLED, NO_MATCH]; omega)]
  rw [i32wrap_eq_self (by omega) (by omega)]
  have h2 : (s : Int) + (s : Int) = 2 * (s : Int) := by ring
  rw [h2]

lemma runWrites_pos (steps : List Nat) :
    ∀ c : Int, 1 ≤ c → (∀ s ∈ steps, 1 ≤ s) → c + (steps.sum : Int) < 2 ^ 31 →
    (runWrites steps c).length = steps.length ∧
    (∀ id ∈ runWrites steps c, c ≤ id) ∧
    (runWrites steps c).Pairwise (· < ·) := by
  induction steps with
  | nil => intro c _ _ _; simp [runWrites]
  | cons s rest ih =>
    intro c hc hs hb
    have hs1 : 1 ≤ s := hs s (by simp)
    have hsum : (0 : Int) ≤ (rest.sum : Int) := by positivity
    have hcast : (((s :: rest).sum : Nat) : Int) = (s : Int) + (rest.sum : Int) := by
      simp [List.sum_cons]
    have hb' : c + (s : Int) < 2 ^ 31 := by omega
    rw [runWrites, nextID_pos hc hb']
    have ihr := ih (c + s) (by omega) (fun t ht => hs t (by simp [ht])) (by omega)
    refine ⟨by simp [ihr.1], ?_, ?_⟩
    · intro id hid
      rcases List.mem_cons.mp hid with h | h
      · omega
      · have := ihr.2.1 id h; omega
    · refine List.pairwise_cons.mpr ⟨?_, ihr.2.2⟩
      intro y hy
      have := ihr.2.1 y hy
      have : c + (s : Int) ≤ y := this
      omega

lemma runWrites_replicate_cons (n : Nat) :
    ∀ (c : Int) (s : Nat) (rest : List Nat), 1 ≤ c → 1 ≤ s →
    c + (s : Int) * n < 2 ^ 31 →
    runWrites (List.replicate n s ++ rest) c
      = (List.range n).map (fun k : Nat => c + (s : Int) * (k : Int))
        ++ runWrites rest (c + (s : Int) * n) := by
  induction n with
  | zero => intro c s rest _ _ _; simp [runWrites]
  | succ n ih =>
    intro c s rest hc hs hb
    have hs0 : (1 : Int) ≤ (s : Int) := by exact_mod_cast hs
    have hn0 : (0 : Int) ≤ (n : Int) := Int.ofNat_nonneg n
    have hsn : (s : Int) * 1 ≤ (s : Int) * ((n : Int) + 1) := by nlinarith
    have hcast : ((n + 1 : Nat) : Int) = (n : Int) + 1 := by push_cast; ring
    rw [hcast] at hb
    have hb' : c + (s : Int) < 2 ^ 31 := by nlinarith
    rw [List.replicate_succ, List.cons_append, runWrites, nextID_pos hc hb']
    show (c :: runWrites (List.replicate n s ++ rest) (c + s)) = _
    rw [ih (c + s) s rest (by omega) hs (by nlinarith)]
    rw [List.range_succ_eq_map]
    dsimp only [List.map_cons, List.map_map]
    rw [List.cons_append]
    congr 1
    · simp
    congr 1
    · rw [List.map_map]
      apply List.map_congr_left
      intro k _
      simp only [Function.comp_apply]
      push_cast
      ring
    · congr 1
      rw [hcast]
      ring

lemma first_write_from_zero (rest : List Nat) :
    runWrites (65535 :: rest) 0 = 65535 :: runWrites rest 131070 := by
  rw [runWrites]
  have h : nextID 0 65535 = some (65535, 131070) := by decide
  rw [h]

lemma tail_pair :
    runWrites [65535, 65535] 2147450880 = [2147450880, -2147450881] := by decide

lemma run_c1 :
    runWrites (List.replicate 32769 65535) 0
      = 65535 :: ((List.range 32766).map (fun k : Nat => 131070 + (65535 : Int) * (k : Int))
          ++ [2147450880, -2147450881]) := by
  have h1 : (32769 : Nat) = 32768 + 1 := by norm_num
  have h2 : (32768 : Nat) = 32766 + 2 := by norm_num
  rw [h1, List.replicate_succ, h2, List.replicate_add]
  rw [first_write_from_zero]
  rw [runWrites_replicate_cons 32766 131070 65535 (List.replicate 2 65535)
    (by norm_num) (by norm_num) (by norm_num)]
  have h4 : List.replicate 2 65535 = [65535, 65535] := by decide
  rw [h4]
  push_cast
  norm_num [tail_pair]

/-- Claim C1, counterexample: in the run of 32769 `Logger::write` calls
with `id_step = 65535` from the freshly constructed allocator (counter
0), the write at position 32768 returns id -2147450881, which is NOT
strictly greater than the id 2147450880 returned by the earlier write at
position 32767: the 32-bit counter wraps, so the claimed global strict
monotonicity fails. -/
theorem c1_wrap_counterexample :
    (runWrites (List.replicate 32769 65535) 0).getD 32767 0 = 2147450880 ∧
    (runWrites (List.replicate 32769 65535) 0).getD 32768 0 = -2147450881 ∧
    ¬ ((runWrites (List.replicate 32769 65535) 0).getD 32767 0
        < (runWrites (List.replicate 32769 65535) 0).getD 32768 0) := by
  have hlen : ((List.range 32766).map
      (fun k : Nat => 131070 + (65535 : Int) * (k : Int))).length = 32766 := by
    rw [List.length_map, List.length_range]
  have e1 : (runWrites (List.replicate 32769 65535) 0).getD 32767 0 = 2147450880 := by
    rw [run_c1]
    have h : (32767 : Nat) = 32766 + 1 := by norm_num
    rw [h, List.getD_cons_succ]
    rw [List.getD_append_right _ _ 0 32766 (by rw [hlen])]
    rw [hlen]
    norm_num
  have e2 : (runWrites (List.replicate 32769 65535) 0).getD 32768 0 = -2147450881 := by
    rw [run_c1]
    have h : (32768 : Nat) = 32767 + 1 := by norm_num
    rw [h, List.getD_cons_succ]
    rw [List.getD_append_right _ _ 0 32767 (by rw [hlen]; norm_num)]
    rw [hlen]
    norm_num
  exact ⟨e1, e2, by rw [e1, e2]; norm_num⟩

/-- Claim C1 (amended): for every run of `Logger::write` calls from the
freshly constructed allocator whose steps lie in the `uint16_t` range
`[1, 65535]` and whose total increment cannot wrap the 32-bit counter,
every call succeeds and returns an id that is neither -1
(TRACING_DISABLED) nor 0 (NO_MATCH), and the returned ids are strictly
increasing: each id is strictly greater than every id returned by an
earlier write. (The wrap-free hypothesis is forced by the
counterexample: at a 32-bit wrap monotonicity fails.) -/
theorem c1_ids_nonsentinel_monotone_amended (steps : List Nat)
    (hsteps : ∀ s ∈ steps, 1 ≤ s ∧ s ≤ 65535)
    (hsum : (steps.sum : Int) + 65535 < 2 ^ 31) :
    (runWrites steps 0).length = steps.length ∧
    (∀ id ∈ runWrites steps 0, id ≠ TRACING_DISABLED ∧ id ≠ NO_MATCH) ∧
    (runWrites steps 0).Pairwise (· < ·) := by
  cases steps with
  | nil => simp [runWrites]
  | cons s rest =>
    have hs := hsteps s (by simp)
    have hcast : (((s :: rest).sum : Nat) : Int) = (s : Int) + (rest.sum : Int) := by
      simp [List.sum_cons]
    have hs' : (1 : Int) ≤ (s : Int) := by exact_mod_cast hs.1
    have hsle : (s : Int) ≤ 65535 := by exact_mod_cast hs.2
    have hrsum : (0 : Int) ≤ (rest.sum : Int) := by positivity
    rw [runWrites, nextID_zero hs.1 (by omega)]
    dsimp only
    have h2s : ((2 * s : Nat) : Int) = 2 * (s : Int) := by push_cast; ring
    have hpos := runWrites_pos rest (2 * s) (by omega)
      (fun t ht => (hsteps t (by simp [ht])).1) (by omega)
    refine ⟨by simp [hpos.1], ?_, ?_⟩
    · intro id hid
      rcases List.mem_cons.mp hid with h | h
      · simp only [h, TRACING_DISABLED, NO_MATCH]; omega
      · have := hpos.2.1 id h
        simp only [TRACING_DISABLED, NO_MATCH]; omega
    · refine List.pairwise_cons.mpr ⟨?_, hpos.2.2⟩
      intro y hy
      have := hpos.2.1 y hy
      omega

/-- Witness for the amended claim C1 at the concrete run of three writes
with step 1: the ids are 1, 2, 3 — sentinel-free and strictly
increasing. -/
theorem c1_amended_witness :
    (∀ s ∈ [1, 1, 1], 1 ≤ s ∧ s ≤ 65535) ∧
    (([1, 1, 1].sum : Int) + 65535 < 2 ^ 31) ∧
    ((runWrites [1, 1, 1] 0).length = 3 ∧
     (∀ id ∈ runWrites [1, 1, 1] 0, id ≠ TRACING_DISABLED ∧ id ≠ NO_MATCH) ∧
     (runWrites [1, 1, 1] 0).Pairwise (· < ·)) := by
  refine ⟨by decide, by decide, ?_⟩
  exact c1_ids_nonsentinel_monotone_amended [1, 1, 1] (by decide) (by decide)

/-- Claim C5: with the counter at -2, three successive `nextID` calls
with step 1 return -2, 1 and 2: the second call's fetches hit the
sentinels -1 and 0 and skip both, never returning them. -/
theorem c5_sentinel_skip :
    nextID (-2) 1 = some (-2, -1) ∧
    nextID (-1) 1 = some (1, 2) ∧
    nextID 2 1 = some (2, 3) ∧
    runWrites [1, 1, 1] (-2) = [-2, 1, 2] := by decide

end Loom

namespace Loom

/-! ## Lemmas about getTraceID -/

lemma charDigit_digitChar : ∀ d : Nat, d < 64 → charDigit (digitChar d) = (d : Int) := by
  decide

lemma encodeLoop_length (n : Nat) : ∀ (x : Int) (acc : List Char),
    ((encodeLoop n x acc).2).length = n + acc.length := by
  induction n with
  | zero => intro x acc; rw [encodeLoop]; simp
  | succ n ih => intro x acc; rw [encodeLoop, ih]; simp; omega

lemma digitChar_mem {d : Nat} (h : d < 64) : digitChar d ∈ kBase64Alphabet := by
  unfold digitChar
  rw [List.getD_eq_getElem _ _ (by simpa [kBase64Alphabet] using h)]
  exact List.getElem_mem _

lemma encodeLoop_mem (n : Nat) : ∀ (x : Int) (acc : List Char), 0 ≤ x →
    ∀ c ∈ (encodeLoop n x acc).2, c ∈ kBase64Alphabet ∨ c ∈ acc := by
  induction n with
  | zero => intro x acc _ c hc; exact Or.inr hc
  | succ n ih =>
    intro x acc hx c hc
    rw [encodeLoop] at hc
    rcases ih (x / 64) _ (by positivity) c hc with h | h
    · exact Or.inl h
    · rcases List.mem_cons.mp h with h | h
      · refine Or.inl ?_
        rw [h]
        apply digitChar_mem
        have h1 : 0 ≤ x % 64 := Int.emod_nonneg x (by norm_num)
        have h2 : x % 64 < 64 := Int.emod_lt_of_pos x (by norm_num)
        omega
      · exact Or.inr h

lemma nat_mod_pow_succ (m b n : Nat) (hb : 0 < b) :
    m % b ^ (n + 1) = b * (m / b % b ^ n) + m % b := by
  have hq : m = b ^ (n + 1) * (m / b / b ^ n) + (b * (m / b % b ^ n) + m % b) := by
    conv_lhs => rw [← Nat.div_add_mod m b]
    conv_lhs => rw [← Nat.div_add_mod (m / b) (b ^ n)]
    ring
  have hr : b * (m / b % b ^ n) + m % b < b ^ (n + 1) := by
    have h1 : m / b % b ^ n < b ^ n := Nat.mod_lt _ (by positivity)
    have h2 : m % b < b := Nat.mod_lt _ hb
    have e1 : b ^ (n + 1) = b * b ^ n := by rw [pow_succ]; ring
    have h4 : b * (m / b % b ^ n) + b ≤ b * b ^ n := by
      calc b * (m / b % b ^ n) + b = b * (m / b % b ^ n + 1) := by ring
      _ ≤ b * b ^ n := Nat.mul_le_mul_left b h1
    omega
  conv_lhs => rw [hq]
  rw [Nat.mul_add_mod]
  exact Nat.mod_eq_of_lt hr

lemma int_mod_pow_succ (x : Int) (hx : 0 ≤ x) (n : Nat) :
    x % (64 : Int) ^ (n + 1) = 64 * ((x / 64) % (64 : Int) ^ n) + x % 64 := by
  obtain ⟨m, rfl⟩ := Int.eq_ofNat_of_zero_le hx
  have key : ((m % 64 ^ (n + 1) : Nat) : Int)
      = ((64 * (m / 64 % 64 ^ n) + m % 64 : Nat) : Int) := by
    exact_mod_cast congrArg (fun t : Nat => (t : Int)) (nat_mod_pow_succ m 64 n (by norm_num))
  push_cast at key
  exact key

lemma decodeB64Aux_cons (v : Int) (c : Char) (l : List Char) :
    decodeB64Aux v (c :: l) = decodeB64Aux (v * 64 + charDigit c) l := rfl

lemma decode_encodeLoop (n : Nat) : ∀ (x v : Int) (acc : List Char), 0 ≤ x →
    decodeB64Aux v ((encodeLoop n x acc).2)
      = decodeB64Aux (v * 64 ^ n + x % (64 : Int) ^ n) acc := by
  induction n with
  | zero =>
    intro x v acc hx
    rw [encodeLoop]
    norm_num [Int.emod_one]
  | succ n ih =>
    intro x v acc hx
    rw [encodeLoop]
    rw [ih (x / 64) v _ (by positivity)]
    rw [decodeB64Aux_cons]
    congr 1
    have hlt : x % 64 < 64 := Int.emod_lt_of_pos x (by norm_num)
    have hge : 0 ≤ x % 64 := Int.emod_nonneg x (by norm_num)
    rw [charDigit_digitChar (x % 64).toNat (by omega)]
    have htn : (((x % 64).toNat : Nat) : Int) = x % 64 := Int.toNat_of_nonneg hge
    rw [htn]
    rw [int_mod_pow_succ x hx n]
    ring

/-- Claim C2: for every x in `[0, 64^11)`, `getTraceID(x)` returns a
string of exactly 11 characters, each drawn from the base64 alphabet
`A-Z a-z 0-9 + /`, most significant digit first and zero-padded with
the alphabet's digit 0 = 'A'; interpreting the 11 characters as base-64
digits (most significant first) yields back x. -/
theorem c2_traceid_roundtrip (x : Int) (h0 : 0 ≤ x) (h1 : x < 64 ^ 11) :
    ∃ str : String,
      getTraceIDString x = Except.ok str ∧
      str.length = 11 ∧
      (∀ c ∈ str.toList, c ∈ kBase64Alphabet) ∧
      decodeB64 str.toList = x := by
  refine ⟨String.mk (encodeLoop kTraceIdStringLen x []).2, ?_, ?_, ?_, ?_⟩
  · rw [getTraceIDString, getTraceID, if_neg (by omega)]
    rfl
  · show (encodeLoop kTraceIdStringLen x []).2.length = 11
    rw [encodeLoop_length]
    rfl
  · intro c hc
    have hm := encodeLoop_mem kTraceIdStringLen x [] h0 c hc
    simpa using hm
  · show decodeB64 (encodeLoop kTraceIdStringLen x []).2 = x
    rw [decodeB64, kTraceIdStringLen, decode_encodeLoop 11 x 0 [] h0]
    rw [Int.emod_eq_of_lt h0 h1]
    norm_num [decodeB64Aux]

/-- Witness for claim C2 at x = 12345: the hypotheses hold and the
encoding round-trips; the concrete string is "AAAAAAAADA5" (12345 =
3*4096 + 0*64 + 57, digits 3 -> 'D', 0 -> 'A', 57 -> '5'). -/
theorem c2_traceid_roundtrip_witness :
    ((0 : Int) ≤ 12345 ∧ (12345 : Int) < 64 ^ 11) ∧
    (∃ str : String,
      getTraceIDString 12345 = Except.ok str ∧
      str.length = 11 ∧
      (∀ c ∈ str.toList, c ∈ kBase64Alphabet) ∧
      decodeB64 str.toList = 12345) ∧
    getTraceIDString 12345 = Except.ok "AAAAAAAADA5" := by
  refine ⟨⟨by norm_num, by norm_num⟩, ?_, by rfl⟩
  exact c2_traceid_roundtrip 12345 (by norm_num) (by norm_num)

end Loom

namespace Loom

/-! ## Lemmas about the lifecycle writer -/

lemma hasDelegate_true {s : TraceLifecycleVisitor} (hd : s.delegates ≠ []) :
    s.hasDelegate = true := by
  unfold TraceLifecycleVisitor.hasDelegate
  simpa using hd

lemma hasDelegate_false {s : TraceLifecycleVisitor} (hd : s.delegates = []) :
    s.hasDelegate = false := by
  unfold TraceLifecycleVisitor.hasDelegate
  simp [hd]

/-- Claim C3, counterexample: a TRACE_START entry whose extra (1) does
not match the expected trace (42), visited while a trace is active, is
NOT fully ignored: the state is unchanged and no callback fires, but the
entry is forwarded to `delegates_.back()` (the pipeline ends in the
printing visitor, so the entry is emitted to the output), because the
forward in the TRACE_START case runs after `onTraceStart` returns early
on the mismatch. -/
theorem c3_mismatch_counterexample :
    TraceLifecycleVisitor.visitStandard envC activeState
        ⟨5, EntryType.TRACE_START, 0, 0, 0, 0, 1⟩
      = ⟨activeState,
         [Effect.pipelineVisitStandard ⟨5, EntryType.TRACE_START, 0, 0, 0, 0, 1⟩],
         none⟩ ∧
    (TraceLifecycleVisitor.visitStandard envC activeState
        ⟨5, EntryType.TRACE_START, 0, 0, 0, 0, 1⟩).effects ≠ [] := by
  have heq : TraceLifecycleVisitor.visitStandard envC activeState
      ⟨5, EntryType.TRACE_START, 0, 0, 0, 0, 1⟩
      = ⟨activeState,
         [Effect.pipelineVisitStandard ⟨5, EntryType.TRACE_START, 0, 0, 0, 0, 1⟩],
         none⟩ := by rfl
  exact ⟨heq, by rw [heq]; simp⟩

/-- Claim C3 (amended): a lifecycle StandardEntry whose extra differs
from `expected_trace_` causes no state change, no exception, no file
open or close and no callback; for TRACE_END, TRACE_ABORT and
TRACE_TIMEOUT it produces no effect at all, but a mismatched TRACE_START
is still forwarded to the pipeline when a trace is active (and hence
emitted to the output), and produces no effect only when no pipeline
exists. -/
theorem c3_mismatch_ignored_amended (env : Env) (s : TraceLifecycleVisitor)
    (e : StandardEntry) (hm : e.extra ≠ s.expected_trace)
    (ht : e.type = EntryType.TRACE_START ∨ e.type = EntryType.TRACE_END ∨
          e.type = EntryType.TRACE_ABORT ∨ e.type = EntryType.TRACE_TIMEOUT) :
    (TraceLifecycleVisitor.visitStandard env s e).state = s ∧
    (TraceLifecycleVisitor.visitStandard env s e).thrown = none ∧
    (TraceLifecycleVisitor.visitStandard env s e).effects
      = (if e.type = EntryType.TRACE_START ∧ s.hasDelegate = true
         then [Effect.pipelineVisitStandard e] else []) := by
  rcases ht with h | h | h | h
  · cases hd : s.hasDelegate <;>
      simp [TraceLifecycleVisitor.visitStandard, h, onTraceStart, hm, hd]
  · simp [TraceLifecycleVisitor.visitStandard, h, hm]
  · simp [TraceLifecycleVisitor.visitStandard, h, hm]
  · simp [TraceLifecycleVisitor.visitStandard, h, hm]

/-- Witness for the amended claim C3: a TRACE_START with extra 1 visited
by the active visitor expecting 42 leaves the state unchanged, throws
nothing, and produces exactly the pipeline forward. -/
theorem c3_amended_witness :
    ((⟨5, EntryType.TRACE_START, 0, 0, 0, 0, 1⟩ : StandardEntry).extra
        ≠ activeState.expected_trace) ∧
    ((TraceLifecycleVisitor.visitStandard envC activeState
        ⟨5, EntryType.TRACE_START, 0, 0, 0, 0, 1⟩).state = activeState ∧
     (TraceLifecycleVisitor.visitStandard envC activeState
        ⟨5, EntryType.TRACE_START, 0, 0, 0, 0, 1⟩).thrown = none ∧
     (TraceLifecycleVisitor.visitStandard envC activeState
        ⟨5, EntryType.TRACE_START, 0, 0, 0, 0, 1⟩).effects
       = (if (⟨5, EntryType.TRACE_START, 0, 0, 0, 0, 1⟩ : StandardEntry).type
              = EntryType.TRACE_START ∧ activeState.hasDelegate = true
          then [Effect.pipelineVisitStandard ⟨5, EntryType.TRACE_START, 0, 0, 0, 0, 1⟩]
          else [])) := by
  refine ⟨by decide, ?_⟩
  exact c3_mismatch_ignored_amended envC activeState
    ⟨5, EntryType.TRACE_START, 0, 0, 0, 0, 1⟩ (by decide) (Or.inl rfl)

end Loom

namespace Loom

/-- Claim C4: a TRACE_START whose extra matches `expected_trace_`,
visited while a trace is active (`output_` non-null, callbacks set),
aborts the active trace with reason NEW_START: the file is closed and
the pipeline discarded (delegates cleared, output reset — state back to
IDLE with `done_` set), the `onTraceAbort` callback fires with
NEW_START, and no new trace file is opened by that entry (no openFile
effect, no forward: the pipeline is gone when the forward check runs). -/
theorem c4_double_start_abort (env : Env) (s : TraceLifecycleVisitor)
    (e : StandardEntry) (f : String)
    (ht : e.type = EntryType.TRACE_START) (hm : e.extra = s.expected_trace)
    (ho : s.output = some f) (hcb : s.hasCallbacks = true) :
    TraceLifecycleVisitor.visitStandard env s e
      = ⟨{ s with output := none, delegates := [], done := true },
         [Effect.closeFile, Effect.cbTraceAbort s.expected_trace AbortReason.NEW_START],
         none⟩ := by
  simp [TraceLifecycleVisitor.visitStandard, onTraceStart, onTraceAbort, cleanupState,
    ht, hm, ho, hcb, TraceLifecycleVisitor.hasDelegate]

/-- Witness for claim C4: a matching TRACE_START (extra 42) on the
concrete active visitor tears the trace down with a NEW_START abort. -/
theorem c4_double_start_abort_witness :
    ((⟨5, EntryType.TRACE_START, 0, 0, 0, 7, 42⟩ : StandardEntry).type
        = EntryType.TRACE_START ∧
     (⟨5, EntryType.TRACE_START, 0, 0, 0, 7, 42⟩ : StandardEntry).extra
        = activeState.expected_trace ∧
     activeState.output = some "/traces/open.tmp" ∧
     activeState.hasCallbacks = true) ∧
    TraceLifecycleVisitor.visitStandard envC activeState
        ⟨5, EntryType.TRACE_START, 0, 0, 0, 7, 42⟩
      = ⟨{ activeState with output := none, delegates := [], done := true },
         [Effect.closeFile,
          Effect.cbTraceAbort activeState.expected_trace AbortReason.NEW_START],
         none⟩ := by
  refine ⟨⟨rfl, by decide, rfl, rfl⟩, ?_⟩
  exact c4_double_start_abort envC activeState
    ⟨5, EntryType.TRACE_START, 0, 0, 0, 7, 42⟩ "/traces/open.tmp"
    rfl (by decide) rfl rfl

/-- Claim C6: `getTraceID` rejects every negative trace id with the
invalid-argument error, and a TRACE_START whose matching trace id is
negative fails before any state mutation: the visitor's members are
exactly as before (output still null, delegates still empty — IDLE), no
effect is produced (no file opened, no delegates constructed, no
callback), and the exception propagates. -/
theorem c6_negative_trace_id (env : Env) (s : TraceLifecycleVisitor)
    (e : StandardEntry)
    (ht : e.type = EntryType.TRACE_START) (hm : e.extra = s.expected_trace)
    (hneg : s.expected_trace < 0) (ho : s.output = none)
    (_hd : s.delegates = []) :
    (∀ x : Int, x < 0 → getTraceID x = Except.error "trace_id must be non-negative") ∧
    TraceLifecycleVisitor.visitStandard env s e
      = ⟨s, [], some "trace_id must be non-negative"⟩ := by
  constructor
  · intro x hx
    rw [getTraceID, if_pos hx]
  · simp [TraceLifecycleVisitor.visitStandard, onTraceStart, ht, hm, ho,
      getTraceIDString, getTraceID, hneg, Except.map]

/-- Witness for claim C6: an idle visitor expecting trace -1 receives a
matching TRACE_START; nothing changes and the invalid-argument error
propagates. -/
theorem c6_negative_trace_id_witness :
    ((⟨5, EntryType.TRACE_START, 0, 0, 0, 0, -1⟩ : StandardEntry).extra = -1 ∧
     ((-1 : Int) < 0)) ∧
    ((∀ x : Int, x < 0 → getTraceID x = Except.error "trace_id must be non-negative") ∧
     TraceLifecycleVisitor.visitStandard envC
        ⟨"/traces", "trace", [("key", "value")], true, none, [], -1, false⟩
        ⟨5, EntryType.TRACE_START, 0, 0, 0, 0, -1⟩
       = ⟨⟨"/traces", "trace", [("key", "value")], true, none, [], -1, false⟩,
          [], some "trace_id must be non-negative"⟩) := by
  refine ⟨⟨rfl, by norm_num⟩, ?_⟩
  exact c6_negative_trace_id envC
    ⟨"/traces", "trace", [("key", "value")], true, none, [], -1, false⟩
    ⟨5, EntryType.TRACE_START, 0, 0, 0, 0, -1⟩
    rfl (by decide) (by decide) rfl rfl

/-- Claim C7: a TRACE_END, TRACE_ABORT or TRACE_TIMEOUT entry matching
`expected_trace_` while a trace is active (pipeline present, file open,
callbacks set) performs, in this order: the lifecycle entry is forwarded
to the pipeline (so it appears in the file), then the pipeline is torn
down and the file closed (delegates cleared, output reset), then the
corresponding callback fires — `onTraceEnd` for TRACE_END, `onTraceAbort`
with CONTROLLER_INITIATED for TRACE_ABORT and with TIMEOUT for
TRACE_TIMEOUT. -/
theorem c7_lifecycle_end_order (env : Env) (s : TraceLifecycleVisitor)
    (e : StandardEntry) (f : String)
    (ho : s.output = some f) (hd : s.delegates ≠ []) (hcb : s.hasCallbacks = true)
    (hm : e.extra = s.expected_trace)
    (ht : e.type = EntryType.TRACE_END ∨ e.type = EntryType.TRACE_ABORT ∨
          e.type = EntryType.TRACE_TIMEOUT) :
    TraceLifecycleVisitor.visitStandard env s e
      = ⟨{ s with output := none, delegates := [], done := true },
         [Effect.pipelineVisitStandard e, Effect.closeFile,
          if e.type = EntryType.TRACE_END then Effect.cbTraceEnd e.extra
          else Effect.cbTraceAbort e.extra
            (if e.type = EntryType.TRACE_TIMEOUT then AbortReason.TIMEOUT
             else AbortReason.CONTROLLER_INITIATED)], none⟩ := by
  have hd' : s.hasDelegate = true := hasDelegate_true hd
  rcases ht with h | h | h <;>
    simp [TraceLifecycleVisitor.visitStandard, h, hm, hd', ho, hcb,
      onTraceEnd, onTraceAbort, cleanupState]

/-- Witness for claim C7 at a concrete TRACE_ABORT (extra 42) on the
active visitor: the entry is forwarded, then the file closes, then
`onTraceAbort(42, CONTROLLER_INITIATED)` fires. -/
theorem c7_lifecycle_end_order_witness :
    (activeState.output = some "/traces/open.tmp" ∧
     activeState.delegates ≠ [] ∧ activeState.hasCallbacks = true ∧
     (⟨5, EntryType.TRACE_ABORT, 0, 0, 0, 0, 42⟩ : StandardEntry).extra
        = activeState.expected_trace) ∧
    TraceLifecycleVisitor.visitStandard envC activeState
        ⟨5, EntryType.TRACE_ABORT, 0, 0, 0, 0, 42⟩
      = ⟨{ activeState with output := none, delegates := [], done := true },
         [Effect.pipelineVisitStandard ⟨5, EntryType.TRACE_ABORT, 0, 0, 0, 0, 42⟩,
          Effect.closeFile,
          if (⟨5, EntryType.TRACE_ABORT, 0, 0, 0, 0, 42⟩ : StandardEntry).type
              = EntryType.TRACE_END
          then Effect.cbTraceEnd (42 : Int)
          else Effect.cbTraceAbort (42 : Int)
            (if (⟨5, EntryType.TRACE_ABORT, 0, 0, 0, 0, 42⟩ : StandardEntry).type
                = EntryType.TRACE_TIMEOUT
             then AbortReason.TIMEOUT else AbortReason.CONTROLLER_INITIATED)],
         none⟩ := by
  refine ⟨⟨rfl, by decide, rfl, by decide⟩, ?_⟩
  exact c7_lifecycle_end_order envC activeState
    ⟨5, EntryType.TRACE_ABORT, 0, 0, 0, 0, 42⟩ "/traces/open.tmp"
    rfl (by decide) rfl (by decide) (Or.inr (Or.inl rfl))

end Loom

namespace Loom

lemma writeHeaders_foldl (hs : List (String × String)) : ∀ out : String,
    hs.foldl (fun acc h => acc ++ h.1 ++ "|" ++ h.2 ++ "\n") out
      = out ++ headerLines hs := by
  induction hs with
  | nil => intro out; simp [headerLines]
  | cons h t ih =>
    intro out
    rw [List.foldl_cons, ih, headerLines]
    simp [String.append_assoc]

/-- Claim C8: the header block written by `writeHeaders` is exactly the
line "dt", then "ver|" and the format version, then "id|" and the trace
id, then "prec|" and the timestamp precision, then one newline-terminated
"key|value" line per configured header pair in order, then one blank
line (each line above is newline-terminated, and one extra newline ends
the block). -/
theorem c8_header_block (version precision : Nat) (hs : List (String × String))
    (id : String) :
    writeHeaders version precision hs id
      = "dt\n" ++ ("ver|" ++ toString version ++ "\n") ++ ("id|" ++ id ++ "\n")
        ++ ("prec|" ++ toString precision ++ "\n") ++ headerLines hs ++ "\n" := by
  rw [writeHeaders]
  rw [writeHeaders_foldl]
  simp only [String.append_assoc]

end Loom

namespace Loom

/-- Claim C9: a TRACE_BACKWARDS entry with matching extra is treated
exactly like a TRACE_START (the source's switch falls through). When
idle it opens the trace file, writes the headers, builds the
four-visitor pipeline, fires `onTraceStart`, and the entry itself is
then forwarded to the pipeline; when a trace is already active it
triggers a NEW_START abort (after which no pipeline exists, so the entry
is not forwarded and no file is opened). -/
theorem c9_backwards_like_start (env : Env) (s : TraceLifecycleVisitor)
    (e : StandardEntry)
    (ht : e.type = EntryType.TRACE_BACKWARDS)
    (hm : e.extra = s.expected_trace) :
    (∀ (idChars : List Char) (fname : String),
      s.output = none → s.hasCallbacks = true →
      getTraceID s.expected_trace = Except.ok idChars →
      env.ensureFolderOk = true →
      getTraceFilename env s.trace_pfx (String.mk idChars) = Except.ok fname →
      TraceLifecycleVisitor.visitStandard env s e
        = ⟨{ s with
              output := some (s.folder ++ "/" ++ sanitize (String.mk idChars)
                ++ "/" ++ sanitize fname),
              delegates := [DelegateKind.printEntry, DelegateKind.deltaEncoding,
                DelegateKind.timestampTruncating, DelegateKind.stackTraceInverting],
              done := false },
           [Effect.openFile (s.folder ++ "/" ++ sanitize (String.mk idChars)
              ++ "/" ++ sanitize fname),
            Effect.writeOutput (writeHeaders env.kTraceFormatVersion
              env.kTimestampPrecision s.trace_headers (String.mk idChars)),
            Effect.cbTraceStart s.expected_trace e.matchid
              (s.folder ++ "/" ++ sanitize (String.mk idChars) ++ "/" ++ sanitize fname),
            Effect.pipelineVisitStandard e], none⟩) ∧
    (∀ f : String, s.output = some f → s.hasCallbacks = true →
      TraceLifecycleVisitor.visitStandard env s e
        = ⟨{ s with output := none, delegates := [], done := true },
           [Effect.closeFile,
            Effect.cbTraceAbort s.expected_trace AbortReason.NEW_START], none⟩) := by
  constructor
  · intro idChars fname ho hcb hid hfolder hfname
    simp [TraceLifecycleVisitor.visitStandard, ht, onTraceStart, hm, ho, hcb,
      getTraceIDString, hid, hfolder, hfname, Except.map,
      TraceLifecycleVisitor.hasDelegate]
  · intro f ho hcb
    simp [TraceLifecycleVisitor.visitStandard, ht, onTraceStart, onTraceAbort,
      cleanupState, hm, ho, hcb, TraceLifecycleVisitor.hasDelegate]

/-- Witness for claim C9: a matching TRACE_BACKWARDS (extra 42) on the
concrete idle visitor opens the concrete trace file, writes the headers,
builds the pipeline, fires the start callback and is forwarded; the same
entry on the concrete active visitor aborts with NEW_START. -/
theorem c9_backwards_like_start_witness :
    ((⟨5, EntryType.TRACE_BACKWARDS, 0, 0, 0, 7, 42⟩ : StandardEntry).type
        = EntryType.TRACE_BACKWARDS ∧
     idleState.output = none ∧
     getTraceID idleState.expected_trace = Except.ok ("AAAAAAAAAAq".toList) ∧
     getTraceFilename envC idleState.trace_pfx "AAAAAAAAAAq"
        = Except.ok "trace-123-1970-6-17T10-20-30-AAAAAAAAAAq.tmp") ∧
    TraceLifecycleVisitor.visitStandard envC idleState
        ⟨5, EntryType.TRACE_BACKWARDS, 0, 0, 0, 7, 42⟩
      = ⟨{ idleState with
            output := some ("/traces/AAAAAAAAAAq/trace-123-1970-6-17T10-20-30-AAAAAAAAAAq.tmp"),
            delegates := [DelegateKind.printEntry, DelegateKind.deltaEncoding,
              DelegateKind.timestampTruncating, DelegateKind.stackTraceInverting],
            done := false },
         [Effect.openFile "/traces/AAAAAAAAAAq/trace-123-1970-6-17T10-20-30-AAAAAAAAAAq.tmp",
          Effect.writeOutput (writeHeaders 1 100 [("key", "value")] "AAAAAAAAAAq"),
          Effect.cbTraceStart 42 7 "/traces/AAAAAAAAAAq/trace-123-1970-6-17T10-20-30-AAAAAAAAAAq.tmp",
          Effect.pipelineVisitStandard ⟨5, EntryType.TRACE_BACKWARDS, 0, 0, 0, 7, 42⟩],
         none⟩ ∧
    TraceLifecycleVisitor.visitStandard envC activeState
        ⟨5, EntryType.TRACE_BACKWARDS, 0, 0, 0, 7, 42⟩
      = ⟨{ activeState with output := none, delegates := [], done := true },
         [Effect.closeFile, Effect.cbTraceAbort 42 AbortReason.NEW_START],
         none⟩ := by
  refine ⟨⟨rfl, rfl, by rfl, by rfl⟩, ?_, ?_⟩
  · have h := (c9_backwards_like_start envC idleState
      ⟨5, EntryType.TRACE_BACKWARDS, 0, 0, 0, 7, 42⟩ rfl (by decide)).1
      ("AAAAAAAAAAq".toList) "trace-123-1970-6-17T10-20-30-AAAAAAAAAAq.tmp"
      rfl rfl (by rfl) rfl (by rfl)
    exact h
  · have h := (c9_backwards_like_start envC activeState
      ⟨5, EntryType.TRACE_BACKWARDS, 0, 0, 0, 7, 42⟩ rfl (by decide)).2
      "/traces/open.tmp" rfl rfl
    exact h

/-- Claim C10: when no trace is active (`delegates_` empty), visiting
any FramesEntry, any BytesEntry, or any StandardEntry whose type is none
of the five lifecycle tags leaves the visitor's state completely
unchanged (all members, in particular `output_`, `delegates_`, `done_`
and `expected_trace_`), throws nothing, and produces no effect: nothing
reaches the output and no callback fires. -/
theorem c10_no_delegate_noop (env : Env) (s : TraceLifecycleVisitor)
    (hd : s.delegates = []) :
    (∀ fe : FramesEntry, TraceLifecycleVisitor.visitFrames s fe = ⟨s, [], none⟩) ∧
    (∀ be : BytesEntry, TraceLifecycleVisitor.visitBytes s be = ⟨s, [], none⟩) ∧
    (∀ e : StandardEntry,
      e.type ≠ EntryType.TRACE_END → e.type ≠ EntryType.TRACE_TIMEOUT →
      e.type ≠ EntryType.TRACE_ABORT → e.type ≠ EntryType.TRACE_BACKWARDS →
      e.type ≠ EntryType.TRACE_START →
      TraceLifecycleVisitor.visitStandard env s e = ⟨s, [], none⟩) := by
  have hd' : s.hasDelegate = false := hasDelegate_false hd
  refine ⟨?_, ?_, ?_⟩
  · intro fe; simp [TraceLifecycleVisitor.visitFrames, hd']
  · intro be; simp [TraceLifecycleVisitor.visitBytes, hd']
  · intro e h1 h2 h3 h4 h5
    cases he : e.type with
    | TRACE_END => exact absurd he h1
    | TRACE_TIMEOUT => exact absurd he h2
    | TRACE_ABORT => exact absurd he h3
    | TRACE_BACKWARDS => exact absurd he h4
    | TRACE_START => exact absurd he h5
    | STACK_FRAME => simp [TraceLifecycleVisitor.visitStandard, he, hd']
    | other tag => simp [TraceLifecycleVisitor.visitStandard, he, hd']

/-- Witness for claim C10: concrete frames, bytes and STACK_FRAME
entries visited by the concrete idle visitor (empty delegates) leave it
untouched and produce nothing. -/
theorem c10_no_delegate_noop_witness :
    idleState.delegates = [] ∧
    TraceLifecycleVisitor.visitFrames idleState
        ⟨6, EntryType.STACK_FRAME, 1000, 9, [10, 11]⟩ = ⟨idleState, [], none⟩ ∧
    TraceLifecycleVisitor.visitBytes idleState
        ⟨7, EntryType.other 80, 0, 3, [1, 2, 3]⟩ = ⟨idleState, [], none⟩ ∧
    TraceLifecycleVisitor.visitStandard envC idleState
        ⟨8, EntryType.STACK_FRAME, 1000, 9, 0, 0, 42⟩ = ⟨idleState, [], none⟩ := by
  refine ⟨rfl, ?_, ?_, ?_⟩
  · exact (c10_no_delegate_noop envC idleState rfl).1
      ⟨6, EntryType.STACK_FRAME, 1000, 9, [10, 11]⟩
  · exact (c10_no_delegate_noop envC idleState rfl).2.1
      ⟨7, EntryType.other 80, 0, 3, [1, 2, 3]⟩
  · exact (c10_no_delegate_noop envC idleState rfl).2.2
      ⟨8, EntryType.STACK_FRAME, 1000, 9, 0, 0, 42⟩
      (by decide) (by decide) (by decide) (by decide) (by decide)

end Loom
